import Mathlib

/-!
Verification of the installation-step runner in `bootstrap.py`
(iamHrithikRaj/dotfiles).  The Python source is shallowly embedded:
Python strings become `List Char`, the subprocess layer becomes an
explicit `ExecOutcome` oracle, and filesystem / subprocess side effects
become explicit `Trace` values.  Every definition is translated from the
source file; line references point into `bootstrap.py`.
-/

namespace Bootstrap

/-- Python strings are modelled as lists of characters. -/
abbrev Str := List Char

/-- The six ASCII whitespace characters stripped by Python `str.strip()`
(space, tab, newline, carriage return, vertical tab, form feed).
Non-ASCII Unicode whitespace is not produced by the outputs modelled here. -/
def isPyWhitespace (c : Char) : Bool :=
  c == ' ' || c == '\t' || c == '\n' || c == '\r' ||
    c == Char.ofNat 11 || c == Char.ofNat 12

/-- Python `str.strip()`: drop whitespace from both ends. -/
def pyStrip (s : Str) : Str :=
  ((s.dropWhile isPyWhitespace).reverse.dropWhile isPyWhitespace).reverse

/-- Python `str.lower()` restricted to ASCII case mapping, which is all the
benign-phrase matching in `bootstrap.py` relies on. -/
def pyLower (s : Str) : Str := s.map Char.toLower

/-- Boolean prefix test on character lists. -/
def isPrefixB : Str → Str → Bool
  | [], _ => true
  | _ :: _, [] => false
  | p :: ps, c :: cs => p == c && isPrefixB ps cs

/-- Python substring containment `pat in s`. -/
def containsSub (pat : Str) : Str → Bool
  | [] => isPrefixB pat []
  | c :: cs => isPrefixB pat (c :: cs) || containsSub pat cs

/-- A recorded failure, `bootstrap.py` line 315: the dict
`\x7b"step": desc, "cmd": cmd, "output": output[:500], "code": returncode\x7d`. -/
structure FailureRecord where
  step : Str
  cmd : Str
  output : Str
  code : Int
deriving Repr, DecidableEq

/-- Outcome of the subprocess layer for one command: either the command
completed with a return code and captured stdout/stderr, or
`subprocess.run` itself raised an exception with a message. -/
inductive ExecOutcome where
  | completed (returncode : Int) (stdoutText stderrText : Str)
  | raised (message : Str)
deriving Repr, DecidableEq

/-- Combined output computed at `bootstrap.py` line 296:
`(result.stderr.strip() + "\n" + result.stdout.strip()).strip()`. -/
def combinedOutput (stdoutText stderrText : Str) : Str :=
  pyStrip (pyStrip stderrText ++ ('\n' :: pyStrip stdoutText))

/-- The `already_ok_patterns` list of `bootstrap.py` lines 298-304.  Note the
fifth entry is `"is already configured"`, with the leading `"is "`. -/
def already_ok_patterns : List Str :=
  [("already installed").data,
   ("no applicable").data,
   ("already exists").data,
   ("no update available").data,
   ("is already configured").data]

/-- `any(p in output.lower() for p in already_ok_patterns)`,
`bootstrap.py` line 305. -/
def isBenignFailure (output : Str) : Bool :=
  already_ok_patterns.any (fun p => containsSub p (pyLower output))

/-- The Command Runner, `bootstrap.py` lines 280-323 (`run`).  Returns the
boolean the Python function returns together with the failure list after the
call (the Python code appends to the global `FAILURES`).  The subprocess
behaviour is passed in as an `ExecOutcome`; the `.raised` case models the
`except Exception` handler at lines 320-323. -/
def run (cmd desc : Str) (dry_run : Bool) (exec : ExecOutcome)
    (failures : List FailureRecord) : Bool × List FailureRecord :=
  if dry_run then (true, failures)
  else
    match exec with
    | ExecOutcome.completed rc souts serrs =>
      if rc ≠ 0 then
        let output := combinedOutput souts serrs
        if isBenignFailure output then (true, failures)
        else (false, failures ++ [⟨desc, cmd, output.take 500, rc⟩])
      else (true, failures)
    | ExecOutcome.raised msg => (false, failures ++ [⟨desc, cmd, msg, -1⟩])

/-- The final exit decision of `main`, `bootstrap.py` lines 854-856:
`if FAILURES: sys.exit(1)`, otherwise `main` returns and the process
exits 0. -/
def mainExitCode (failures : List FailureRecord) : Nat :=
  if failures.isEmpty then 0 else 1

/-- `detect_platform`, `bootstrap.py` lines 242-263.  `system` is
`platform.system()` and `which b` tells whether `shutil.which(b)` found the
binary `b`.  The function is total: no execution path raises. -/
def detect_platform (system : Str) (which : Str → Bool) : Str :=
  if system = ("Windows").data then ("windows").data
  else if system = ("Darwin").data then ("macos").data
  else if system = ("Linux").data then
    if which (("apt").data) then ("linux_apt").data
    else if which (("dnf").data) then ("linux_dnf").data
    else if which (("pacman").data) then ("linux_pacman").data
    else ("linux_apt").data
  else ("windows").data

/-- The five platform keys used by `CORE_TOOLS` and the registry
prerequisites. -/
def platformKeys : List Str :=
  [("windows").data, ("macos").data, ("linux_apt").data,
   ("linux_dnf").data, ("linux_pacman").data]

/-- One entry of the `LANGUAGES` registry (`bootstrap.py` lines 58-192).
Only the fields read by the install steps are modelled: `label`
(log messages), `prerequisites` (platform key to command) and
`system_tools` ((command, binary) pairs).  The remaining registry fields
(treesitter, lsp, mason, formatters, linters, plugin_file) are never read
by the bootstrap code. -/
structure LanguageEntry where
  id : Str
  label : Str
  prerequisites : List (Str × Str)
  system_tools : List (Str × Str)

/-- The `LANGUAGES` registry in dict insertion order, restricted to the
fields the install steps read. -/
def LANGUAGES : List LanguageEntry :=
  [⟨("c_cpp").data, ("C / C++").data, [], []⟩,
   ⟨("csharp").data, ("C#").data,
     [(("windows").data, ("winget install Microsoft.DotNet.SDK.9 --silent --accept-source-agreements --accept-package-agreements").data),
      (("linux_apt").data, ("sudo apt install -y dotnet-sdk-9.0").data),
      (("linux_dnf").data, ("sudo dnf install -y dotnet-sdk-9.0").data),
      (("macos").data, ("brew install dotnet-sdk").data)],
     [(("dotnet tool install -g csharpier").data, ("csharpier").data)]⟩,
   ⟨("rust").data, ("Rust").data,
     [(("windows").data, ("winget install Rustlang.Rustup --silent --accept-source-agreements --accept-package-agreements").data),
      (("linux_apt").data, ("curl --proto \x27=https\x27 --tlsv1.2 -sSf https://sh.rustup.rs | sh -s -- -y").data),
      (("linux_dnf").data, ("curl --proto \x27=https\x27 --tlsv1.2 -sSf https://sh.rustup.rs | sh -s -- -y").data),
      (("linux_pacman").data, ("sudo pacman -S --noconfirm rustup && rustup default stable").data),
      (("macos").data, ("curl --proto \x27=https\x27 --tlsv1.2 -sSf https://sh.rustup.rs | sh -s -- -y").data)],
     []⟩,
   ⟨("python").data, ("Python").data, [], []⟩,
   ⟨("markdown").data, ("Markdown").data, [], []⟩,
   ⟨("json").data, ("JSON").data, [], []⟩,
   ⟨("xml").data, ("XML").data, [], []⟩,
   ⟨("yaml").data, ("YAML").data, [], []⟩]

/-- Dict lookup on an association list with `Str` keys
(Python `d.get(k)`). -/
def lookupStr (ps : List (Str × Str)) (k : Str) : Option Str :=
  (ps.find? (fun p => decide (p.1 = k))).map Prod.snd

/-- The `CORE_TOOLS` table, `bootstrap.py` lines 199-234, as
platform key to (tool name, command) pairs in dict order. -/
def CORE_TOOLS : List (Str × List (Str × Str)) :=
  [(("windows").data,
    [(("VC++ Redist").data, ("winget install Microsoft.VCRedist.2015+.x64 --silent --accept-source-agreements --accept-package-agreements").data),
     (("Neovim").data, ("winget install Neovim.Neovim --silent --accept-source-agreements --accept-package-agreements").data),
     (("Git").data, ("winget install Git.Git --silent --accept-source-agreements --accept-package-agreements").data),
     (("ripgrep").data, ("winget install BurntSushi.ripgrep.MSVC --silent --accept-source-agreements --accept-package-agreements").data),
     (("fd").data, ("winget install sharkdp.fd --silent --accept-source-agreements --accept-package-agreements").data),
     (("CMake").data, ("winget install Kitware.CMake --silent --accept-source-agreements --accept-package-agreements").data),
     (("Node.js").data, ("winget install OpenJS.NodeJS.LTS --silent --accept-source-agreements --accept-package-agreements").data),
     (("Nerd Font").data, ("winget install DEVCOM.JetBrainsMonoNerdFont --silent --accept-source-agreements --accept-package-agreements").data),
     (("Oh My Posh").data, ("winget install JanDeDobbeleer.OhMyPosh --source winget --silent --accept-source-agreements --accept-package-agreements").data)]),
   (("linux_apt").data,
    [(("Neovim + tools").data, ("sudo apt update && sudo apt install -y neovim git ripgrep fd-find unzip gcc make cmake curl").data),
     (("Node.js").data, ("curl -fsSL https://deb.nodesource.com/setup_lts.x | sudo -E bash - && sudo apt install -y nodejs").data),
     (("Oh My Posh").data, ("brew install jandedobbeleer/oh-my-posh/oh-my-posh").data)]),
   (("linux_dnf").data,
    [(("Neovim + tools").data, ("sudo dnf install -y neovim git ripgrep fd-find unzip gcc make cmake curl").data),
     (("Node.js").data, ("sudo dnf install -y nodejs").data),
     (("Oh My Posh").data, ("brew install jandedobbeleer/oh-my-posh/oh-my-posh").data)]),
   (("linux_pacman").data,
    [(("Neovim + tools").data, ("sudo pacman -S --noconfirm --needed neovim git ripgrep fd unzip gcc make cmake curl").data),
     (("Node.js").data, ("sudo pacman -S --noconfirm --needed nodejs npm").data),
     (("Oh My Posh").data, ("brew install jandedobbeleer/oh-my-posh/oh-my-posh").data)]),
   (("macos").data,
    [(("Neovim + tools").data, ("brew install neovim git ripgrep fd cmake").data),
     (("Node.js").data, ("brew install node").data),
     (("Nerd Font").data, ("brew install --cask font-jetbrains-mono-nerd-font").data),
     (("Oh My Posh").data, ("brew install jandedobbeleer/oh-my-posh/oh-my-posh").data)])]

/-- `CORE_TOOLS.get(plat, \x7b\x7d)`, `bootstrap.py` line 346. -/
def coreToolsFor (plat : Str) : List (Str × Str) :=
  ((CORE_TOOLS.find? (fun e => decide (e.1 = plat))).map Prod.snd).getD []

/-- Observable side effects of one install step: `spawns` are commands
actually handed to the subprocess layer, `writes` are filesystem
mutations (each tagged with a short label, overlay copies carry the
relative file path), `okVals` are the booleans returned by the Runner in
call order, and `printed` are commands printed by the dry-run branch of
the Runner. -/
structure Trace where
  spawns : List Str
  writes : List Str
  okVals : List Bool
  printed : List Str
deriving Repr, DecidableEq

/-- The empty trace. -/
def Trace.nil : Trace := ⟨[], [], [], []⟩

/-- Concatenation of traces in execution order. -/
def Trace.append (a b : Trace) : Trace :=
  ⟨a.spawns ++ b.spawns, a.writes ++ b.writes,
   a.okVals ++ b.okVals, a.printed ++ b.printed⟩

/-- State of the Neovim config directory as read by
`install_nvim_config`: whether the directory exists, whether its `.git`
marker exists, and the timestamps of existing backup copies. -/
structure NvimState where
  configExists : Bool
  gitMarker : Bool
  backups : List Str
deriving Repr, DecidableEq

/-- The environment a run observes: `whichPath` is `shutil.which`,
`exec` gives the subprocess layer's behaviour per command,
`profileContent` is the shell-profile file addressed by
`get_shell_profile` (`none` when absent), `fontFile` tells whether
`~/.local/share/fonts/JetBrainsMonoNerdFont-Regular.ttf` exists,
`nugetListStdout` is the stdout of the `dotnet nuget list source` query,
`bundledFiles` are the relative paths produced by `rglob` over the
repository's `nvim/` tree, and `shellIsZsh` reflects `$SHELL`. -/
structure World where
  whichPath : Str → Option Str
  exec : Str → ExecOutcome
  profileContent : Option Str
  fontFile : Bool
  nvim : NvimState
  nugetListStdout : Str
  bundledFiles : List Str
  shellIsZsh : Bool

/-- One Runner call inside a step, producing its own trace.  A dry run
prints the command and reports success without spawning; a live call
spawns the command and classifies it exactly as `run` does. -/
def runT (cmd desc : Str) (dry_run : Bool) (w : World) : Bool × Trace :=
  if dry_run then (true, ⟨[], [], [true], [cmd]⟩)
  else
    let r := run cmd desc false (w.exec cmd) []
    (r.1, ⟨[cmd], [], [r.1], []⟩)

/-- A sequence of Runner calls over (command, description) pairs. -/
def runSeq (cmds : List (Str × Str)) (dry_run : Bool) (w : World) : Trace :=
  match cmds with
  | [] => Trace.nil
  | cd :: rest => ((runT cd.1 cd.2 dry_run w).2).append (runSeq rest dry_run w)

/-- The winget command of `ensure_real_python`, `bootstrap.py`
lines 378 and 392. -/
def wingetPythonCmd : Str :=
  ("winget install Python.Python.3.12 --silent --accept-source-agreements --accept-package-agreements").data

/-- `ensure_real_python`, `bootstrap.py` lines 367-401: if no `python` on
PATH install one; if the resolved path looks like the Microsoft Store
sandbox, install the python.org build alongside; otherwise do nothing. -/
def ensure_real_python (dry_run : Bool) (w : World) : Trace :=
  match w.whichPath (("python").data) with
  | none =>
    (runT wingetPythonCmd (("Installing Python (python.org)").data) dry_run w).2
  | some p =>
    if containsSub (("windowsapps").data) (pyLower p) ||
        containsSub (("pythonsoftwarefoundation").data) (pyLower p) then
      (runT wingetPythonCmd
        (("Installing Python (python.org — replaces Store version in PATH)").data)
        dry_run w).2
    else Trace.nil

/-- The PowerShell PATH-refresh command of `refresh_path`,
`bootstrap.py` line 409. -/
def refreshPathPsCmd : Str :=
  ("powershell -NoProfile -Command \"[System.Environment]::GetEnvironmentVariable(\x27Path\x27,\x27Machine\x27) + \x27;\x27 + [System.Environment]::GetEnvironmentVariable(\x27Path\x27,\x27User\x27)\"").data

/-- `refresh_path`, `bootstrap.py` lines 404-426: on Windows it spawns a
PowerShell query and updates the in-process PATH; on POSIX it only reads
profile files and mutates the in-process PATH.  Only the spawn is an
observable external effect. -/
def refresh_path (plat : Str) : Trace :=
  if plat = ("windows").data then ⟨[refreshPathPsCmd], [], [], []⟩ else Trace.nil

/-- The four shell commands of `install_nerd_font_linux`,
`bootstrap.py` lines 443-448, paired with the descriptions
`cmd.split()[0]` the code passes to the Runner. -/
def fontCmds : List (Str × Str) :=
  [(("curl -fLo /tmp/JetBrainsMono.zip https://github.com/ryanoasis/nerd-fonts/releases/latest/download/JetBrainsMono.zip").data, ("curl").data),
   (("unzip -o /tmp/JetBrainsMono.zip -d ~/.local/share/fonts").data, ("unzip").data),
   (("fc-cache -fv").data, ("fc-cache").data),
   (("rm -f /tmp/JetBrainsMono.zip").data, ("rm").data)]

/-- `install_nerd_font_linux`, `bootstrap.py` lines 429-450: return
immediately when the font file already exists, return after printing in a
dry run, otherwise create the font directory and run the four download
commands. -/
def install_nerd_font_linux (dry_run : Bool) (w : World) : Trace :=
  if w.fontFile then Trace.nil
  else if dry_run then Trace.nil
  else Trace.append ⟨[], [("mkdir fonts").data], [], []⟩ (runSeq fontCmds false w)

/-- Whether `plat.startswith("linux")`, `bootstrap.py` line 357. -/
def isLinuxPlat (plat : Str) : Bool := isPrefixB (("linux").data) plat

/-- `install_core_tools`, `bootstrap.py` lines 340-364: run the
platform's core-tool commands, then the Windows Python check, then the
Linux font install, then (live runs only) the PATH refresh. -/
def install_core_tools (plat : Str) (dry_run : Bool) (w : World) : Trace :=
  let t0 := runSeq (coreToolsFor plat) dry_run w
  let t1 := if plat = ("windows").data then t0.append (ensure_real_python dry_run w) else t0
  let t2 := if isLinuxPlat plat then t1.append (install_nerd_font_linux dry_run w) else t1
  if dry_run then t2 else t2.append (refresh_path plat)

/-- The NuGet source query of `bootstrap.py` line 472. -/
def nugetListCmd : Str := ("dotnet nuget list source").data

/-- The NuGet source registration command of `bootstrap.py` line 480. -/
def nugetAddCmd : Str :=
  ("dotnet nuget add source https://api.nuget.org/v3/index.json -n nuget.org").data

/-- The NuGet configuration block of `install_language_prerequisites`,
`bootstrap.py` lines 469-483: when `dotnet` is on PATH or this is a dry
run, `subprocess.run("dotnet nuget list source")` executes directly (note:
this spawn is NOT guarded by `dry_run`); registration is skipped when
`"nuget.org"` appears in the query's stdout, otherwise the add-source
command goes through the Runner. -/
def configure_nuget_source (dry_run : Bool) (w : World) : Trace :=
  if (w.whichPath (("dotnet").data)).isSome || dry_run then
    let checkT : Trace := ⟨[nugetListCmd], [], [], []⟩
    if containsSub (("nuget.org").data) (pyLower w.nugetListStdout) then checkT
    else checkT.append (runT nugetAddCmd (("Configuring NuGet source").data) dry_run w).2
  else Trace.nil

/-- The prerequisite (command, description) pairs for a platform, from the
registry loop of `bootstrap.py` lines 461-465. -/
def prereqCmds (plat : Str) : List (Str × Str) :=
  LANGUAGES.filterMap (fun l =>
    (lookupStr l.prerequisites plat).map
      (fun c => (c, l.label ++ (" prerequisites").data)))

/-- Whether `"csharp" in LANGUAGES`, `bootstrap.py` line 470. -/
def csharpInRegistry : Bool :=
  LANGUAGES.any (fun l => decide (l.id = ("csharp").data))

/-- `install_language_prerequisites`, `bootstrap.py` lines 455-483. -/
def install_language_prerequisites (plat : Str) (dry_run : Bool) (w : World) : Trace :=
  (runSeq (prereqCmds plat) dry_run w).append
    (if csharpInRegistry then configure_nuget_source dry_run w else Trace.nil)

/-- The (command, binary, label) triples of all registry `system_tools`,
flattened in registry order (`bootstrap.py` lines 492-498). -/
def sysToolTriples : List (Str × Str × Str) :=
  (LANGUAGES.map (fun l => l.system_tools.map (fun p => (p.1, p.2, l.label)))).flatten

/-- The loop body of `install_system_tools`: skip with a log line when the
binary already resolves on PATH outside a dry run, else call the Runner. -/
def sysToolsRun (triples : List (Str × Str × Str)) (dry_run : Bool) (w : World) : Trace :=
  match triples with
  | [] => Trace.nil
  | (cmd, binName, lab) :: rest =>
    let t :=
      if (w.whichPath binName).isSome && !dry_run then Trace.nil
      else (runT cmd
        ((("Installing ").data ++ binName ++ (" (").data ++ lab ++ (")").data)
        ) dry_run w).2
    t.append (sysToolsRun rest dry_run w)

/-- `install_system_tools`, `bootstrap.py` lines 486-498. -/
def install_system_tools (dry_run : Bool) (w : World) : Trace :=
  sysToolsRun sysToolTriples dry_run w

/-- The kickstart clone command of `bootstrap.py` line 540, with the
f-string config path abbreviated. -/
def cloneCmd : Str :=
  ("git clone https://github.com/nvim-lua/kickstart.nvim.git \"<config_path>\"").data

/-- Write-trace entry for the timestamped `shutil.copytree` backup of
`bootstrap.py` line 536. -/
def bakWrite (now : Str) : Str := ("backup ").data ++ now

/-- The two `mkdir(parents=True, exist_ok=True)` calls of the overlay,
`bootstrap.py` lines 553-554. -/
def mkdirWrites : List Str :=
  [("mkdir lua/custom/plugins").data, ("mkdir lua/kickstart/plugins").data]

/-- `install_nvim_config`, `bootstrap.py` lines 513-567.  `now` is the
`datetime.now().strftime("%Y%m%d_%H%M%S")` timestamp.  On a live run with
an existing config directory the code calls `shutil.copytree` to a
`.bak.<now>` path; `copytree` raises `FileExistsError` when that path
already exists, which would crash the process — modelled as `none`.
The clone Runner call happens exactly when the `.git` marker is absent;
the overlay (live runs) creates the two plugin directories and copies
every bundled file.  The external effects of the spawned `git clone`
command itself are outside the model, so `gitMarker` is carried over
unchanged; `configExists` becomes true on live runs because the overlay
creates the directory. -/
def install_nvim_config (dry_run : Bool) (now : Str) (w : World) :
    Option (World × Trace) :=
  let backupStep : Option (List Str × List Str) :=
    if w.nvim.configExists then
      if dry_run then some (w.nvim.backups, [])
      else if now ∈ w.nvim.backups then none
      else some (w.nvim.backups ++ [now], [bakWrite now])
    else some (w.nvim.backups, [])
  match backupStep with
  | none => none
  | some (bks, bw) =>
    let cloneT : Trace :=
      if !w.nvim.gitMarker then
        (runT cloneCmd (("Cloning kickstart.nvim (fresh install)").data) dry_run w).2
      else Trace.nil
    let overlayW : List Str := if dry_run then [] else mkdirWrites ++ w.bundledFiles
    let w' : World :=
      { w with nvim := ⟨w.nvim.configExists || !dry_run, w.nvim.gitMarker, bks⟩ }
    some (w', Trace.append ⟨[], bw, [], []⟩ (Trace.append cloneT ⟨[], overlayW, [], []⟩))

/-- `ensure_shell_profile`, `bootstrap.py` lines 569-585: return when the
profile file exists, otherwise (live runs) create it empty. -/
def ensure_shell_profile (plat : Str) (dry_run : Bool) (w : World) : World × Trace :=
  match w.profileContent with
  | some _ => (w, Trace.nil)
  | none =>
    if dry_run then (w, Trace.nil)
    else ({ w with profileContent := some [] }, ⟨[], [("touch profile").data], [], []⟩)

/-- The PowerShell alias line of `setup_vim_alias`, `bootstrap.py`
line 595. -/
def aliasLineWindows : Str := ("Set-Alias -Name vim -Value nvim").data

/-- The POSIX alias line of `setup_vim_alias`, `bootstrap.py` line 609. -/
def aliasLinePosix : Str := ("alias vim=\x27nvim\x27").data

/-- The comment header written before the alias line,
`bootstrap.py` lines 603 and 617. -/
def aliasHeader : Str := ("\n# Neovim alias — use \x27vim\x27 to open nvim\n").data

/-- The full block appended to the profile by `setup_vim_alias`. -/
def aliasBlock (line : Str) : Str := aliasHeader ++ (line ++ ['\n'])

/-- `setup_vim_alias`, `bootstrap.py` lines 588-620: skip when the exact
alias line is already in the profile, otherwise append the commented
block (live runs); the `open(..., "a")` creates a missing file. -/
def setup_vim_alias (plat : Str) (dry_run : Bool) (w : World) : World × Trace :=
  let line := if plat = ("windows").data then aliasLineWindows else aliasLinePosix
  match w.profileContent with
  | some c =>
    if containsSub line c then (w, Trace.nil)
    else if dry_run then (w, Trace.nil)
    else ({ w with profileContent := some (c ++ aliasBlock line) },
          ⟨[], [("append alias").data], [], []⟩)
  | none =>
    if dry_run then (w, Trace.nil)
    else ({ w with profileContent := some (aliasBlock line) },
          ⟨[], [("append alias").data], [], []⟩)

/-- The profile marker checked by `setup_powerfetch`, `bootstrap.py`
lines 648 and 681. -/
def pfMarker : Str := ("function powerfetch").data

/-- The PowerShell function block of `setup_powerfetch`,
`bootstrap.py` lines 653-658, with the destination path expanded. -/
def pfBlockWindows : Str :=
  ("\n# powerfetch — system info display (https://github.com/jantari/powerfetch)\nfunction powerfetch \x7b\n  & \"C:\\Program Files\\powerfetch\\powerfetch.ps1\" @args\n\x7d\n").data

/-- The POSIX function block of `setup_powerfetch`,
`bootstrap.py` lines 683-691, with the destination path expanded. -/
def pfBlockPosix : Str :=
  ("\n# powerfetch — system info display (https://github.com/jantari/powerfetch)\nfunction powerfetch \x7b pwsh -NoProfile -File \x27~/.local/bin/powerfetch.ps1\x27 \"$@\"; \x7d\n").data

/-- `setup_powerfetch`, `bootstrap.py` lines 623-694: copy the bundled
script to the install directory (live runs, unconditionally), then append
the shell function to the profile unless the marker is already there. -/
def setup_powerfetch (plat : Str) (dry_run : Bool) (w : World) : World × Trace :=
  let copyT : Trace :=
    if dry_run then Trace.nil else ⟨[], [("copy powerfetch script").data], [], []⟩
  let block := if plat = ("windows").data then pfBlockWindows else pfBlockPosix
  match w.profileContent with
  | some c =>
    if containsSub pfMarker c then (w, copyT)
    else if dry_run then (w, copyT)
    else ({ w with profileContent := some (c ++ block) },
          copyT.append ⟨[], [("append powerfetch").data], [], []⟩)
  | none =>
    if dry_run then (w, copyT)
    else ({ w with profileContent := some block },
          copyT.append ⟨[], [("append powerfetch").data], [], []⟩)

/-- The Oh My Posh init line, `bootstrap.py` lines 705-709, by platform
and `$SHELL`. -/
def ompInitLine (plat : Str) (zsh : Bool) : Str :=
  if plat = ("windows").data then ("oh-my-posh init pwsh | Invoke-Expression").data
  else if zsh then ("eval \"$(oh-my-posh init zsh)\"").data
  else ("eval \"$(oh-my-posh init bash)\"").data

/-- The block appended by `setup_oh_my_posh`, `bootstrap.py` line 718. -/
def ompBlock (line : Str) : Str := ("\n# Oh My Posh prompt\n").data ++ (line ++ ['\n'])

/-- `setup_oh_my_posh`, `bootstrap.py` lines 697-720: skip when the init
line is already in the profile, else append the block (live runs). -/
def setup_oh_my_posh (plat : Str) (dry_run : Bool) (w : World) : World × Trace :=
  let line := ompInitLine plat w.shellIsZsh
  match w.profileContent with
  | some c =>
    if containsSub line c then (w, Trace.nil)
    else if dry_run then (w, Trace.nil)
    else ({ w with profileContent := some (c ++ ompBlock line) },
          ⟨[], [("append oh-my-posh").data], [], []⟩)
  | none =>
    if dry_run then (w, Trace.nil)
    else ({ w with profileContent := some (ompBlock line) },
          ⟨[], [("append oh-my-posh").data], [], []⟩)

/-- The step sequence of `main`, `bootstrap.py` lines 838-853: the three
tool steps (unless `--skip-tools`), then config overlay, profile
creation, alias, powerfetch and prompt setup.  Returns the final world
and the concatenated effect trace, or `none` when `install_nvim_config`
would crash on a backup-path collision. -/
def mainSteps (plat : Str) (dry_run skip_tools : Bool) (now : Str) (w : World) :
    Option (World × Trace) :=
  let t0 :=
    if skip_tools then Trace.nil
    else ((install_core_tools plat dry_run w).append
            (install_language_prerequisites plat dry_run w)).append
          (install_system_tools dry_run w)
  match install_nvim_config dry_run now w with
  | none => none
  | some (w1, t1) =>
    let p2 := ensure_shell_profile plat dry_run w1
    let p3 := setup_vim_alias plat dry_run p2.1
    let p4 := setup_powerfetch plat dry_run p3.1
    let p5 := setup_oh_my_posh plat dry_run p4.1
    some (p5.1,
      ((((t0.append t1).append p2.2).append p3.2).append p4.2).append p5.2)

/-- A trace with no filesystem mutation, no subprocess spawn, and only
successful Runner results. -/
def Trace.quiet (t : Trace) : Prop :=
  t.writes = [] ∧ t.spawns = [] ∧ t.okVals.all (fun b => b) = true ∧
    t.printed.length = t.okVals.length

/-- A subprocess oracle under which every command completes with exit
code 0 and empty output. -/
def execAllOk : Str → ExecOutcome := fun _ => ExecOutcome.completed 0 [] []

/-- A fresh machine: nothing on PATH, no profile, no font, no config. -/
def emptyWorld : World :=
  { whichPath := fun _ => none
    exec := execAllOk
    profileContent := none
    fontFile := false
    nvim := ⟨false, false, []⟩
    nugetListStdout := []
    bundledFiles := []
    shellIsZsh := false }

/-- A machine after a completed first run: config directory with `.git`
marker present, font installed, `nuget.org` already registered, every
probed binary on PATH. -/
def rerunWorld : World :=
  { whichPath := fun _ => some (("/usr/bin/tool").data)
    exec := execAllOk
    profileContent := some (aliasBlock aliasLinePosix)
    fontFile := true
    nvim := ⟨true, true, []⟩
    nugetListStdout := ("registered sources:\n  1.  nuget.org [enabled]").data
    bundledFiles := [("init.lua").data, ("lua/custom/plugins/rust.lua").data]
    shellIsZsh := false }

/-- A first timestamp used in concrete scenarios. -/
def ts1 : Str := ("20260101_120000").data

/-- A second, later timestamp used in concrete scenarios. -/
def ts2 : Str := ("20260101_120001").data

/-- The boolean the Runner returns for the kickstart clone command under
the world's subprocess oracle. -/
def cloneOk (w : World) : Bool :=
  (runT cloneCmd (("Cloning kickstart.nvim (fresh install)").data) false w).1

/-- A machine state in which a backup with timestamp `ts1` already
exists, so a second backup at the same timestamp would collide. -/
def collisionWorld : World :=
  { rerunWorld with nvim := ⟨true, true, [ts1]⟩ }

theorem isPrefixB_append_right (p s : Str) : isPrefixB p (p ++ s) = true := by
  induction p with
  | nil => rfl
  | cons c cs ih => simp [isPrefixB, ih]

theorem containsSub_nil_pat (s : Str) : containsSub [] s = true := by
  cases s <;> simp [containsSub, isPrefixB]

theorem containsSub_append_right (p s : Str) : containsSub p (p ++ s) = true := by
  cases p with
  | nil => exact containsSub_nil_pat s
  | cons c cs => simp [containsSub, isPrefixB_append_right, isPrefixB]

theorem containsSub_append_left (p a b : Str) (h : containsSub p b = true) :
    containsSub p (a ++ b) = true := by
  induction a with
  | nil => simpa using h
  | cons c cs ih => simp [containsSub, ih]

theorem Trace.quiet_nil : Trace.nil.quiet := ⟨rfl, rfl, rfl, rfl⟩

theorem Trace.quiet_append {a b : Trace} (ha : a.quiet) (hb : b.quiet) :
    (a.append b).quiet := by
  obtain ⟨w1, s1, o1, p1⟩ := ha
  obtain ⟨w2, s2, o2, p2⟩ := hb
  exact ⟨by simp [Trace.append, w1, w2], by simp [Trace.append, s1, s2],
         by simp [Trace.append, List.all_append, o1, o2],
         by simp [Trace.append, p1, p2]⟩

/-- C1 (counterexample): the claim's benign-phrase list includes the bare
substring "already configured", but the Runner's `already_ok_patterns`
entry is "is already configured".  A command exiting 1 with output
"already configured" contains the claimed substring case-insensitively,
yet the Runner returns `Failed` and appends a failure record, refuting
the claim that such an outcome is reported as `AlreadySatisfied` with
nothing appended. -/
theorem C1_counterexample :
    containsSub (("already configured").data)
      (pyLower (combinedOutput (("already configured").data) [])) = true ∧
    run (("winget upgrade Git.Git").data) (("Installing Git").data) false
        (ExecOutcome.completed 1 (("already configured").data) []) [] =
      (false, [⟨("Installing Git").data, ("winget upgrade Git.Git").data,
               ("already configured").data, 1⟩]) := by
  decide

/-- C1 (amended): for every non-dry Runner invocation whose command exits
non-zero and whose combined captured output contains, case-insensitively,
any entry of the code's benign list ("already installed", "no applicable",
"already exists", "no update available", "is already configured"), the
Runner reports success and appends nothing to the failure list. -/
theorem C1_benign_phrase_success (cmd desc souts serrs : Str) (rc : Int)
    (failures : List FailureRecord) (hrc : rc ≠ 0)
    (hben : isBenignFailure (combinedOutput souts serrs) = true) :
    run cmd desc false (ExecOutcome.completed rc souts serrs) failures =
      (true, failures) := by
  simp [run, hrc, hben]

/-- C1 (witness): the spec's own scenario — exit code 1 with output
"Git is already installed" is reported as success with no failure
recorded. -/
theorem C1_witness :
    run (("apt install git").data) (("Installing Git").data) false
        (ExecOutcome.completed 1 (("Git is already installed").data) []) [] =
      (true, []) :=
  C1_benign_phrase_success (("apt install git").data) (("Installing Git").data)
    (("Git is already installed").data) [] 1 [] (by decide) (by decide)

/-- C2: for every non-dry Runner invocation whose command exits non-zero
and whose combined output matches no benign phrase, the Runner returns
`Failed` (it returns rather than aborting) and appends exactly one
failure record holding the original command, the description, the
combined output truncated to 500 characters, and the exit code. -/
theorem C2_nonbenign_failure_recorded (cmd desc souts serrs : Str) (rc : Int)
    (failures : List FailureRecord) (hrc : rc ≠ 0)
    (hben : isBenignFailure (combinedOutput souts serrs) = false) :
    run cmd desc false (ExecOutcome.completed rc souts serrs) failures =
      (false,
       failures ++ [⟨desc, cmd, (combinedOutput souts serrs).take 500, rc⟩]) := by
  simp [run, hrc, hben]

/-- C2 (witness): a genuine failure — exit code 1 with output
"network unreachable" — appends exactly one record with command,
description, output and code. -/
theorem C2_witness :
    run (("apt install git").data) (("Installing Git").data) false
        (ExecOutcome.completed 1 (("network unreachable").data) []) [] =
      (false, [⟨("Installing Git").data, ("apt install git").data,
               ("network unreachable").data, 1⟩]) := by
  have h := C2_nonbenign_failure_recorded (("apt install git").data)
    (("Installing Git").data) (("network unreachable").data) [] 1 []
    (by decide) (by decide)
  simpa using h

/-- C3: after all steps complete, `main` exits 1 if and only if the
failure list is non-empty, and 0 otherwise. -/
theorem C3_exit_code_iff_failures (failures : List FailureRecord) :
    (mainExitCode failures = 1 ↔ failures ≠ []) ∧
    (mainExitCode failures = 0 ↔ failures = []) := by
  unfold mainExitCode
  cases failures <;> simp

/-- C3 (witness): one recorded failure exits 1; an empty list exits 0. -/
theorem C3_witness :
    mainExitCode [⟨("d").data, ("c").data, [], 1⟩] = 1 ∧ mainExitCode [] = 0 :=
  ⟨(C3_exit_code_iff_failures [⟨("d").data, ("c").data, [], 1⟩]).1.mpr (by decide),
   (C3_exit_code_iff_failures []).2.mpr rfl⟩

/-- C7: when the subprocess layer itself raises, the Runner catches the
exception (the function returns instead of propagating), reports
`Failed`, and appends exactly one failure record with exit code -1. -/
theorem C7_exception_failed (cmd desc msg : Str) (failures : List FailureRecord) :
    run cmd desc false (ExecOutcome.raised msg) failures =
      (false, failures ++ [⟨desc, cmd, msg, -1⟩]) := by
  simp [run]

/-- C8: for every non-dry Runner invocation whose command exits 0, the
Runner reports success and appends nothing to the failure list. -/
theorem C8_zero_exit_success (cmd desc souts serrs : Str)
    (failures : List FailureRecord) :
    run cmd desc false (ExecOutcome.completed 0 souts serrs) failures =
      (true, failures) := by
  simp [run]

/-- C9: the platform detector is a total function whose result is always
one of the five platform keys, and on Linux it probes apt, then dnf,
then pacman, returning the first hit and falling back to the apt key
when none is found. -/
theorem C9_detect_platform_total_linux_order (system : Str) (which : Str → Bool) :
    detect_platform system which ∈ platformKeys ∧
    (system = ("Linux").data →
      detect_platform system which =
        if which (("apt").data) then ("linux_apt").data
        else if which (("dnf").data) then ("linux_dnf").data
        else if which (("pacman").data) then ("linux_pacman").data
        else ("linux_apt").data) := by
  constructor
  · unfold detect_platform
    split_ifs <;> simp [platformKeys]
  · intro h
    subst h
    unfold detect_platform
    rw [if_neg (by decide), if_neg (by decide), if_pos rfl]

/-- C9 (witness): on Linux with no package manager found, the detector
returns the apt fallback key, which is a platform key. -/
theorem C9_witness :
    detect_platform (("Linux").data) (fun _ => false) = ("linux_apt").data ∧
    detect_platform (("Linux").data) (fun _ => false) ∈ platformKeys := by
  have h := C9_detect_platform_total_linux_order (("Linux").data) (fun _ => false)
  exact ⟨by simpa using h.2 rfl, h.1⟩

/-- C10: for every OS identity other than Windows, Darwin and Linux, the
detector returns the windows key, not the apt fallback used for
undetectable Linux systems. -/
theorem C10_unknown_os_gets_windows_key (system : Str) (which : Str → Bool)
    (h1 : system ≠ ("Windows").data) (h2 : system ≠ ("Darwin").data)
    (h3 : system ≠ ("Linux").data) :
    detect_platform system which = ("windows").data ∧
    detect_platform system which ≠ ("linux_apt").data := by
  unfold detect_platform
  rw [if_neg h1, if_neg h2, if_neg h3]
  exact ⟨rfl, by decide⟩

/-- C10 (witness): an unrecognised OS ("FreeBSD") maps to the windows
key. -/
theorem C10_witness :
    detect_platform (("FreeBSD").data) (fun _ => true) = ("windows").data ∧
    detect_platform (("FreeBSD").data) (fun _ => true) ≠ ("linux_apt").data :=
  C10_unknown_os_gets_windows_key (("FreeBSD").data) (fun _ => true)
    (by decide) (by decide) (by decide)

theorem runSeq_dry_quiet (cmds : List (Str × Str)) (w : World) :
    (runSeq cmds true w).quiet := by
  induction cmds with
  | nil => exact Trace.quiet_nil
  | cons cd rest ih => exact Trace.quiet_append ⟨rfl, rfl, rfl, rfl⟩ ih

theorem ensure_real_python_dry_quiet (w : World) :
    (ensure_real_python true w).quiet := by
  unfold ensure_real_python
  cases w.whichPath (("python").data) with
  | none => exact ⟨rfl, rfl, rfl, rfl⟩
  | some p =>
    dsimp only
    by_cases h : (containsSub (("windowsapps").data) (pyLower p) ||
        containsSub (("pythonsoftwarefoundation").data) (pyLower p)) = true
    · rw [if_pos h]; exact ⟨rfl, rfl, rfl, rfl⟩
    · rw [if_neg h]; exact Trace.quiet_nil

theorem install_nerd_font_linux_dry (w : World) :
    install_nerd_font_linux true w = Trace.nil := by
  unfold install_nerd_font_linux
  cases h : w.fontFile <;> simp [h]

theorem install_core_tools_dry_quiet (plat : Str) (w : World) :
    (install_core_tools plat true w).quiet := by
  have h0 := runSeq_dry_quiet (coreToolsFor plat) w
  unfold install_core_tools
  simp only [if_true, install_nerd_font_linux_dry]
  split
  · split
    · exact Trace.quiet_append (Trace.quiet_append h0 (ensure_real_python_dry_quiet w))
        Trace.quiet_nil
    · exact Trace.quiet_append h0 Trace.quiet_nil
  · split
    · exact Trace.quiet_append h0 (ensure_real_python_dry_quiet w)
    · exact h0

theorem configure_nuget_source_dry (w : World) :
    (configure_nuget_source true w).writes = [] ∧
    (configure_nuget_source true w).spawns = [nugetListCmd] ∧
    (configure_nuget_source true w).okVals.all (fun b => b) = true ∧
    (configure_nuget_source true w).printed.length =
      (configure_nuget_source true w).okVals.length := by
  unfold configure_nuget_source
  simp only [Bool.or_true, if_true]
  split
  · exact ⟨rfl, rfl, rfl, rfl⟩
  · exact ⟨rfl, rfl, rfl, rfl⟩

theorem csharpInRegistry_true : csharpInRegistry = true := by decide

theorem install_language_prerequisites_dry (plat : Str) (w : World) :
    (install_language_prerequisites plat true w).writes = [] ∧
    (install_language_prerequisites plat true w).spawns = [nugetListCmd] ∧
    (install_language_prerequisites plat true w).okVals.all (fun b => b) = true ∧
    (install_language_prerequisites plat true w).printed.length =
      (install_language_prerequisites plat true w).okVals.length := by
  obtain ⟨hw, hs, ho, hp⟩ := runSeq_dry_quiet (prereqCmds plat) w
  obtain ⟨nw, ns, no, np⟩ := configure_nuget_source_dry w
  unfold install_language_prerequisites
  rw [csharpInRegistry_true]
  refine ⟨?_, ?_, ?_, ?_⟩ <;>
    simp [Trace.append, List.all_append, hw, hs, ho, hp, nw, ns, no, np]

theorem sysToolsRun_dry_quiet (triples : List (Str × Str × Str)) (w : World) :
    (sysToolsRun triples true w).quiet := by
  induction triples with
  | nil => exact Trace.quiet_nil
  | cons tr rest ih =>
    obtain ⟨cmd, binName, lab⟩ := tr
    unfold sysToolsRun
    simp only [Bool.not_true, Bool.and_false]
    exact Trace.quiet_append ⟨rfl, rfl, rfl, rfl⟩ ih

theorem install_system_tools_dry_quiet (w : World) :
    (install_system_tools true w).quiet :=
  sysToolsRun_dry_quiet sysToolTriples w

theorem install_nvim_config_dry (now : Str) (w : World) :
    ∃ t : Trace, install_nvim_config true now w = some (w, t) ∧ t.quiet := by
  obtain ⟨wp, ex, pc, ff, ⟨ce, gm, bks⟩, nls, bf, sz⟩ := w
  cases ce <;> cases gm <;> exact ⟨_, rfl, ⟨rfl, rfl, rfl, rfl⟩⟩

theorem ensure_shell_profile_dry (plat : Str) (w : World) :
    ensure_shell_profile plat true w = (w, Trace.nil) := by
  unfold ensure_shell_profile
  cases w.profileContent <;> simp

theorem setup_vim_alias_dry (plat : Str) (w : World) :
    setup_vim_alias plat true w = (w, Trace.nil) := by
  unfold setup_vim_alias
  cases w.profileContent <;> simp [ite_self]

theorem setup_powerfetch_dry (plat : Str) (w : World) :
    setup_powerfetch plat true w = (w, Trace.nil) := by
  unfold setup_powerfetch
  cases w.profileContent <;> simp [ite_self]

theorem setup_oh_my_posh_dry (plat : Str) (w : World) :
    setup_oh_my_posh plat true w = (w, Trace.nil) := by
  unfold setup_oh_my_posh
  cases w.profileContent <;> simp [ite_self]

/-- C4 (counterexample): on a dry run from a fresh machine the full step
sequence still launches one subprocess — the unguarded
`dotnet nuget list source` query of `install_language_prerequisites`
(`bootstrap.py` line 472) — refuting the claim that a dry run launches
zero subprocesses. -/
theorem C4_counterexample :
    ((mainSteps (("linux_apt").data) true false ts1 emptyWorld).map
      (fun p => p.2.spawns)) = some [nugetListCmd] ∧ nugetListCmd ≠ [] := by
  constructor
  · rfl
  · decide

/-- C4 (amended): on a dry run (any platform, any machine state, tools
not skipped) the step sequence performs zero filesystem mutations and
leaves the world unchanged, every Runner invocation prints its command
and reports success, and exactly one subprocess is launched: the
read-only `dotnet nuget list source` query. -/
theorem C4_dry_run_effects (plat now : Str) (w : World) :
    ∃ t : Trace, mainSteps plat true false now w = some (w, t) ∧
      t.writes = [] ∧ t.spawns = [nugetListCmd] ∧
      t.okVals.all (fun b => b) = true ∧
      t.printed.length = t.okVals.length := by
  obtain ⟨t1, h1, q1w, q1s, q1o, q1p⟩ := install_nvim_config_dry now w
  obtain ⟨cw, cs, co, cp⟩ := install_core_tools_dry_quiet plat w
  obtain ⟨pw, ps, po, pp⟩ := install_language_prerequisites_dry plat w
  obtain ⟨sw, ss, so, sp⟩ := install_system_tools_dry_quiet w
  unfold mainSteps
  rw [h1]
  simp only [ensure_shell_profile_dry, setup_vim_alias_dry, setup_powerfetch_dry,
    setup_oh_my_posh_dry, if_neg Bool.false_ne_true]
  refine ⟨_, rfl, ?_, ?_, ?_, ?_⟩
  · simp [Trace.append, Trace.nil, cw, pw, sw, q1w]
  · simp [Trace.append, Trace.nil, cs, ps, ss, q1s]
  · simp [Trace.append, Trace.nil, List.all_append, co, po, so, q1o]
  · simp [Trace.append, Trace.nil, cp, pp, sp, q1p]

/-- C4 (witness): the amended dry-run theorem applied to a concrete
machine — no writes, the single NuGet query spawn, all Runner calls
successful. -/
theorem C4_witness :
    ((mainSteps (("macos").data) true false ts1 rerunWorld).map
      (fun p => p.2.writes)) = some [] := by
  obtain ⟨t, he, hw, _, _, _⟩ := C4_dry_run_effects (("macos").data) ts1 rerunWorld
  rw [he]
  simp [hw]

theorem install_nvim_config_live (now : Str) (w : World) :
    install_nvim_config false now w =
      if w.nvim.configExists = true ∧ now ∈ w.nvim.backups then none
      else
        some
          ({ w with nvim :=
              ⟨true, w.nvim.gitMarker,
               if w.nvim.configExists then w.nvim.backups ++ [now]
               else w.nvim.backups⟩ },
           ⟨(if w.nvim.gitMarker then [] else [cloneCmd]),
            (if w.nvim.configExists then [bakWrite now] else []) ++
              (mkdirWrites ++ w.bundledFiles),
            (if w.nvim.gitMarker then [] else [cloneOk w]),
            []⟩) := by
  obtain ⟨wp, ex, pc, ff, ⟨ce, gm, bks⟩, nls, bf, sz⟩ := w
  cases ce with
  | false => cases gm <;> simp [install_nvim_config, cloneOk, Trace.append, Trace.nil, runT]
  | true =>
    by_cases hm : now ∈ bks
    · cases gm <;> simp [install_nvim_config, hm, cloneOk, Trace.append, Trace.nil, runT]
    · cases gm <;> simp [install_nvim_config, hm, cloneOk, Trace.append, Trace.nil, runT]

theorem containsSub_aliasBlock (line c : Str) :
    containsSub line (c ++ aliasBlock line) = true := by
  unfold aliasBlock
  exact containsSub_append_left _ _ _
    (containsSub_append_left _ _ _ (containsSub_append_right _ _))

theorem setup_vim_alias_skip (plat : Str) (w : World) (c : Str)
    (hp : w.profileContent = some c)
    (hc : containsSub
      (if plat = ("windows").data then aliasLineWindows else aliasLinePosix) c = true) :
    setup_vim_alias plat false w = (w, Trace.nil) := by
  unfold setup_vim_alias
  rw [hp]
  dsimp only
  rw [if_pos hc]

theorem setup_vim_alias_first_contains (plat : Str) (w : World) :
    ∃ c, ((setup_vim_alias plat false w).1).profileContent = some c ∧
      containsSub
        (if plat = ("windows").data then aliasLineWindows else aliasLinePosix) c = true := by
  cases hp : w.profileContent with
  | none =>
    refine ⟨aliasBlock
      (if plat = ("windows").data then aliasLineWindows else aliasLinePosix), ?_, ?_⟩
    · simp [setup_vim_alias, hp]
    · simpa using containsSub_aliasBlock
        (if plat = ("windows").data then aliasLineWindows else aliasLinePosix) []
  | some c =>
    by_cases hc : containsSub
        (if plat = ("windows").data then aliasLineWindows else aliasLinePosix) c = true
    · exact ⟨c, by simp [setup_vim_alias, hp, hc], hc⟩
    · refine ⟨c ++ aliasBlock
        (if plat = ("windows").data then aliasLineWindows else aliasLinePosix), ?_,
        containsSub_aliasBlock
          (if plat = ("windows").data then aliasLineWindows else aliasLinePosix) c⟩
      simp [setup_vim_alias, hp, hc]

theorem setup_vim_alias_second_noop (plat : Str) (w : World) :
    setup_vim_alias plat false ((setup_vim_alias plat false w).1) =
      ((setup_vim_alias plat false w).1, Trace.nil) := by
  obtain ⟨c, hp, hc⟩ := setup_vim_alias_first_contains plat w
  exact setup_vim_alias_skip plat _ c hp hc

theorem install_nerd_font_skip_when_present (w : World) (hf : w.fontFile = true) :
    install_nerd_font_linux false w = Trace.nil := by
  unfold install_nerd_font_linux
  rw [hf]
  rfl

theorem configure_nuget_no_readd (w : World)
    (h : containsSub (("nuget.org").data) (pyLower w.nugetListStdout) = true) :
    nugetAddCmd ∉ (configure_nuget_source false w).spawns := by
  unfold configure_nuget_source
  by_cases hd : (w.whichPath (("dotnet").data)).isSome = true
  · simp only [hd, Bool.true_or, if_true, h, if_pos]
    decide
  · simp only [Bool.or_false] at *
    rw [if_neg (by simpa using hd)]
    simp [Trace.nil]

/-- C5 (counterexample): running the config install step twice (existing
config with `.git` marker, no external change, successive timestamps)
does not yield the same end state as running it once: the second run adds
a second timestamped backup, so the claim's "same end state" fails. -/
theorem C5_counterexample :
    ((install_nvim_config false ts1 rerunWorld).map (fun p => p.1.nvim.backups))
      = some [ts1] ∧
    (((install_nvim_config false ts1 rerunWorld).bind
        (fun p => install_nvim_config false ts2 p.1)).map
      (fun p => p.1.nvim.backups)) = some [ts1, ts2] ∧
    ([ts1] : List Str) ≠ [ts1, ts2] :=
  ⟨rfl, rfl, by decide⟩

/-- C5 (amended): the four enumerated idempotency properties hold — a
second alias-setup run leaves the profile unchanged and writes nothing;
an already-present font file is never re-downloaded; an existing base
config (`.git` marker present) is never re-cloned; an already-registered
NuGet source is never re-registered — but the blanket "same end state"
does not (the config step creates a fresh timestamped backup on every
run with an existing config directory). -/
theorem C5_no_redundant_reexecution (plat now : Str) (w : World) :
    (setup_vim_alias plat false ((setup_vim_alias plat false w).1) =
      ((setup_vim_alias plat false w).1, Trace.nil)) ∧
    (w.fontFile = true → install_nerd_font_linux false w = Trace.nil) ∧
    (w.nvim.gitMarker = true →
      ∀ r : World × Trace, install_nvim_config false now w = some r →
        r.2.spawns = []) ∧
    (containsSub (("nuget.org").data) (pyLower w.nugetListStdout) = true →
      nugetAddCmd ∉ (configure_nuget_source false w).spawns) := by
  refine ⟨setup_vim_alias_second_noop plat w,
    install_nerd_font_skip_when_present w, ?_, configure_nuget_no_readd w⟩
  intro hg r hr
  rw [install_nvim_config_live] at hr
  split at hr
  · exact Option.noConfusion hr
  · injection hr with h
    subst h
    simp [hg]

/-- C5 (witness): on a machine where everything is already in place, the
font step does nothing, the config step spawns no clone, and the NuGet
source is not re-added. -/
theorem C5_witness :
    install_nerd_font_linux false rerunWorld = Trace.nil ∧
    (∀ r : World × Trace, install_nvim_config false ts1 rerunWorld = some r →
      r.2.spawns = []) ∧
    nugetAddCmd ∉ (configure_nuget_source false rerunWorld).spawns := by
  have h := C5_no_redundant_reexecution (("linux_apt").data) ts1 rerunWorld
  exact ⟨h.2.1 rfl, h.2.2.1 rfl, h.2.2.2 (by decide)⟩

/-- C6: editor-config step behaviour.  First run (no config directory,
no `.git` marker): no backup, the clone Runner call happens, the overlay
writes every bundled file.  Subsequent run (config directory present,
fresh timestamp): exactly one timestamped backup is created before the
overlay, the clone is performed iff the `.git` marker is absent, the
overlay still writes every bundled file, and prior backups are all
retained.  A colliding timestamp is never overwritten: `copytree` raises
instead (`none`). -/
theorem C6_nvim_config_scenarios (w : World) (now : Str) :
    (w.nvim.configExists = false → w.nvim.gitMarker = false →
      install_nvim_config false now w =
        some ({ w with nvim := ⟨true, false, w.nvim.backups⟩ },
              ⟨[cloneCmd], mkdirWrites ++ w.bundledFiles, [cloneOk w], []⟩)) ∧
    (w.nvim.configExists = true → now ∉ w.nvim.backups →
      ∃ t : Trace,
        install_nvim_config false now w =
          some ({ w with nvim := ⟨true, w.nvim.gitMarker, w.nvim.backups ++ [now]⟩ }, t) ∧
        t.writes = bakWrite now :: (mkdirWrites ++ w.bundledFiles) ∧
        (t.spawns = [] ↔ w.nvim.gitMarker = true)) ∧
    (w.nvim.configExists = true → now ∈ w.nvim.backups →
      install_nvim_config false now w = none) := by
  rw [install_nvim_config_live]
  refine ⟨?_, ?_, ?_⟩
  · intro h1 h2
    simp [h1, h2]
  · intro h1 hm
    refine ⟨⟨(if w.nvim.gitMarker = true then [] else [cloneCmd]),
      (if w.nvim.configExists = true then [bakWrite now] else []) ++
        (mkdirWrites ++ w.bundledFiles),
      (if w.nvim.gitMarker = true then [] else [cloneOk w]), []⟩, ?_, ?_, ?_⟩
    · simp [h1, hm]
    · simp [h1]
    · cases hg : w.nvim.gitMarker <;> simp [hg]
  · intro h1 hm
    simp [h1, hm]

/-- C6 (witness): concrete first-run and collision scenarios — on a
fresh machine the step clones with no backup; with a backup already at
the same timestamp the step refuses (raises) instead of overwriting. -/
theorem C6_witness :
    install_nvim_config false ts1 emptyWorld =
      some ({ emptyWorld with nvim := ⟨true, false, emptyWorld.nvim.backups⟩ },
            ⟨[cloneCmd], mkdirWrites ++ emptyWorld.bundledFiles, [cloneOk emptyWorld], []⟩) ∧
    install_nvim_config false ts1 collisionWorld = none := by
  have h1 := (C6_nvim_config_scenarios emptyWorld ts1).1 rfl rfl
  have h3 := (C6_nvim_config_scenarios collisionWorld ts1).2.2 rfl (by decide)
  exact ⟨h1, h3⟩

end Bootstrap
